import Mathlib

/-!
Shallow embedding of `src/main.py` (a restaurant supply calculator):
the `SupplyData` persistence layer (load / save / add_item), the JSON
document values it reads and writes, and the `SupplyApp.calculate`
recalculation step, modelled as pure state-passing functions over an
explicit application state.  Machine floats are modelled as rationals;
Python exceptions escaping a function are modelled as `Option.none`.
-/

namespace SSXL

/-- Values deserialized by `json.load` (and the in-memory Python values the
code passes around): numbers, strings, booleans, arrays, objects.  Objects
are insertion-ordered association lists, matching Python dict semantics;
documents produced by `json.load` have unique keys. -/
inductive JVal where
  | num : ℚ → JVal
  | str : String → JVal
  | bool : Bool → JVal
  | list : List JVal → JVal
  | obj : List (String × JVal) → JVal

/-- Lookup in an insertion-ordered dict (first, hence unique, binding). -/
def dictGet {α : Type} (k : String) : List (String × α) → Option α
  | [] => none
  | (k', v) :: t => if k' = k then some v else dictGet k t

/-- Python dict assignment `m[k] = v`: replaces in place when the key exists
(keeping its position), otherwise appends a new binding. -/
def dictInsert {α : Type} (k : String) (v : α) : List (String × α) → List (String × α)
  | [] => [(k, v)]
  | (k', v') :: t => if k' = k then (k, v) :: t else (k', v') :: dictInsert k v t

/-- Value of a digit run, most significant first. -/
def digitsVal (cs : List Char) : Nat :=
  cs.foldl (fun a c => 10 * a + (c.toNat - 48)) 0

/-- Leading and trailing whitespace removed from a character list. -/
def trimChars (cs : List Char) : List Char :=
  (((cs.dropWhile Char.isWhitespace).reverse.dropWhile
    Char.isWhitespace)).reverse

/-- Model of Python `str.strip()`. -/
def pyStrip (s : String) : String :=
  ⟨trimChars s.data⟩

/-- Model of Python `float(s)` on a string: surrounding whitespace stripped,
optional sign, plain decimal digits with an optional fraction part.
(`inf`, `nan`, exponents and digit underscores are not modelled; no input
in this development uses them.)  `none` models a raised `ValueError`. -/
def parseFloat (s : String) : Option ℚ :=
  let cs := trimChars s.data
  let signed : ℚ × List Char :=
    match cs with
    | '-' :: r => (-1, r)
    | '+' :: r => (1, r)
    | r => (1, r)
  let sign := signed.1
  let rest := signed.2
  let intPart := rest.takeWhile Char.isDigit
  let rest2 := rest.dropWhile Char.isDigit
  match rest2 with
  | [] =>
    if intPart.isEmpty then none
    else some (sign * (digitsVal intPart : ℚ))
  | '.' :: fr =>
    let fracPart := fr.takeWhile Char.isDigit
    let rest3 := fr.dropWhile Char.isDigit
    if rest3.isEmpty then
      if intPart.isEmpty && fracPart.isEmpty then none
      else some (sign * ((digitsVal intPart : ℚ) +
        (digitsVal fracPart : ℚ) / (10 ^ fracPart.length)))
    else none
  | _ => none

/-- Model of Python `float(v)` on a deserialized value: numbers pass through,
strings are parsed, booleans coerce to 0/1; lists, and objects raise
(`TypeError`), modelled as `none`. -/
def pyFloat : JVal → Option ℚ
  | .num q => some q
  | .str s => parseFloat s
  | .bool b => some (if b then 1 else 0)
  | .list _ => none
  | .obj _ => none

/-- Model of Python `str(v)`; exact on the strings and booleans that occur in
item records (a number or container here only arises from a malformed
document, and its exact Python rendering is not modelled). -/
def pyStr : JVal → String
  | .str s => s
  | .bool b => if b then "True" else "False"
  | .num q => toString q
  | .list _ => "<list>"
  | .obj _ => "<dict>"

/-- Model of Python `bool(v)` truthiness. -/
def pyBool : JVal → Bool
  | .num q => decide (q ≠ 0)
  | .str s => decide (s ≠ "")
  | .bool b => b
  | .list l => !l.isEmpty
  | .obj l => !l.isEmpty

/-- Model of `v.items()`: succeeds only on a dict; on anything else Python
raises `AttributeError`, modelled as `none`. -/
def jItems : JVal → Option (List (String × JVal))
  | .obj kvs => some kvs
  | _ => none

/-- Model of `data.get(k, dflt)` on the deserialized root object. -/
def jGetD (kvs : List (String × JVal)) (k : String) (dflt : JVal) : JVal :=
  (dictGet k kvs).getD dflt

/-- One supply-item record from `SupplyData.load` (main.py lines 57-72):
a 3-list is `(coef, unit, inventory)`, a legacy 2-list is `(coef, unit)`
with inventory defaulted to `0.0`, and any other value is coerced with
`float(v)` as a bare coefficient with `unit = ""`, `inventory = 0.0`.
`none` models the uncaught `ValueError`/`TypeError` from `float`. -/
def loadItem : JVal → Option (ℚ × String × ℚ)
  | .list [a, b, c] =>
    match pyFloat a with
    | none => none
    | some coef =>
      match pyFloat c with
      | none => none
      | some inventory => some (coef, pyStr b, inventory)
  | .list [a, b] =>
    match pyFloat a with
    | none => none
    | some coef => some (coef, pyStr b, 0)
  | v =>
    match pyFloat v with
    | none => none
    | some coef => some (coef, "", 0)

/-- The dict comprehension of main.py lines 51-53:
`{k: float(v) for k, v in ....items()}`, in iteration order. -/
def loadSales : List (String × JVal) → Option (List (String × ℚ))
  | [] => some []
  | (k, v) :: t =>
    match pyFloat v with
    | none => none
    | some q =>
      match loadSales t with
      | none => none
      | some rest => some ((k, q) :: rest)

/-- The item loop of main.py lines 56-72, in iteration order. -/
def loadItems : List (String × JVal) → Option (List (String × (ℚ × String × ℚ)))
  | [] => some []
  | (k, v) :: t =>
    match loadItem v with
    | none => none
    | some item =>
      match loadItems t with
      | none => none
      | some rest => some ((k, item) :: rest)

/-- The in-memory state of the `SupplyData` store: weekday sales estimates,
supply items `name ↦ (coef, unit, inventory)`, the dark-mode preference and
the unsaved-changes flag.  Dicts are insertion-ordered association lists. -/
structure SupplyData where
  sales_estimates : List (String × ℚ)
  supply_items : List (String × (ℚ × String × ℚ))
  dark_mode : Bool
  dirty : Bool
deriving DecidableEq, Repr

/-- The existing-file branch of `SupplyData.load` (main.py lines 48-74), run
from `__init__` where `dirty` is `False` (that branch never writes `dirty`).
`none` models an exception escaping `load`. -/
def loadDoc (doc : JVal) : Option SupplyData :=
  match doc with
  | .obj kvs =>
    match jItems (jGetD kvs "sales_estimates" (.obj [])) with
    | none => none
    | some salesPairs =>
      match loadSales salesPairs with
      | none => none
      | some sales =>
        match jItems (jGetD kvs "supply_items" (.obj [])) with
        | none => none
        | some itemPairs =>
          match loadItems itemPairs with
          | none => none
          | some items =>
            some { sales_estimates := sales
                   supply_items := items
                   dark_mode := pyBool (jGetD kvs "dark_mode" (.bool true))
                   dirty := false }
  | _ => none

/-- The bootstrap estimates of main.py lines 36-44. -/
def defaultEstimates : List (String × ℚ) :=
  [("Monday", 0), ("Tuesday", 0), ("Wednesday", 0), ("Thursday", 0),
   ("Friday", 0), ("Saturday", 0), ("Sunday", 0)]

/-- The document `SupplyData.save` writes (main.py lines 76-88): items
flattened back to `[coef, unit, inventory]` lists. -/
def saveDoc (d : SupplyData) : JVal :=
  .obj [("sales_estimates", .obj (d.sales_estimates.map fun kv => (kv.1, .num kv.2))),
        ("supply_items", .obj (d.supply_items.map fun kv =>
            (kv.1, .list [.num kv.2.1, .str kv.2.2.1, .num kv.2.2.2]))),
        ("dark_mode", .bool d.dark_mode)]

/-- `SupplyData.save` (main.py lines 76-89): returns the store after the call
(`dirty` cleared) and the document written to disk. -/
def saveRun (d : SupplyData) : SupplyData × JVal :=
  ({ d with dirty := false }, saveDoc d)

/-- `SupplyData.__init__` (main.py lines 24-31), which ends in `load()`:
`file` is the parsed content of the backing file, `none` when the path does
not exist.  Returns the constructed store and the document written by the
first-run bootstrap save, if any; `none` models an exception escaping
construction. -/
def initStore (file : Option JVal) : Option (SupplyData × Option JVal) :=
  match file with
  | none =>
    let d0 : SupplyData :=
      { sales_estimates := defaultEstimates, supply_items := [],
        dark_mode := true, dirty := false }
    let saved := saveRun d0
    some (saved.1, some saved.2)
  | some doc =>
    match loadDoc doc with
    | some d => some (d, none)
    | none => none

/-- `SupplyData.add_item` (main.py lines 91-94): stores
`(coef, unit, 0.0)` under `name` and sets `dirty`. -/
def SupplyData.add_item (d : SupplyData) (name : String) (coef : ℚ)
    (unit : String) : SupplyData :=
  { d with supply_items := dictInsert name (coef, unit, 0) d.supply_items,
           dirty := true }

/-- One day row of the UI (main.py lines 124-137): the day's checkbox state
and the text of its sales-estimate entry.  `day_vars` and `day_entries`
are built together from the keys of `sales_estimates`, so they share one
key sequence, modelled as this single list. -/
structure DayRow where
  day : String
  entry : String
  selected : Bool
deriving DecidableEq, Repr

/-- One row of the results table as `calculate` inserts it (main.py lines
365-369): `(item, unit, coef, round(inventory, 3), round(required, 3))`. -/
structure Row where
  item : String
  unit : String
  coef : ℚ
  inventory : ℚ
  required : ℚ
deriving DecidableEq, Repr

/-- The application state `SupplyApp.calculate` reads and writes: the day
rows, the override entry text, the backing store, the results table, the
window title and the message log. -/
structure AppState where
  days : List DayRow
  override_entry : String
  data : SupplyData
  table : List Row
  title : String
  messages : List String
deriving DecidableEq, Repr

/-- The entry-update loop of main.py lines 333-338: writes
`float(entry.get().strip())` into `sales_estimates` day by day; on the first
entry that fails to parse the loop stops (the partial updates stand) and the
offending day is reported. -/
def updateEstimates (est : List (String × ℚ)) :
    List DayRow → List (String × ℚ) × Option String
  | [] => (est, none)
  | d :: rest =>
    match parseFloat (pyStrip d.entry) with
    | some q => updateEstimates (dictInsert d.day q est) rest
    | none => (est, some d.day)

/-- The selected-day sum of main.py lines 341-345:
`sum(sales_estimates[day] for day, var in day_vars.items() if var.get())`.
The lookup cannot miss: every day row's key was just inserted by
`updateEstimates`, so the `getD 0` default is never taken where this is
called (in Python a missing key would raise `KeyError`). -/
def selectedSum (est : List (String × ℚ)) (days : List DayRow) : ℚ :=
  (days.filter (fun d => d.selected)).foldl
    (fun a d => a + (dictGet d.day est).getD 0) 0

/-- Python `round(q, 3)` up to its tie-breaking rule (Python rounds ties to
even, this model rounds ties up; no value in this development hits a tie). -/
def round3 (q : ℚ) : ℚ := (round (q * 1000) : ℚ) / 1000

/-- The per-item computation of main.py lines 358-363:
`computed = total_sales / 1000 * coef; required = computed - inventory`,
then clamped below at 0. -/
def requiredQty (total coef inventory : ℚ) : ℚ :=
  let computed := total / 1000 * coef
  let required := computed - inventory
  if required < 0 then 0 else required

/-- The table-filling loop of main.py lines 358-369, one `Row` per supply
item in insertion order. -/
def makeRows (total : ℚ) (items : List (String × (ℚ × String × ℚ))) :
    List Row :=
  items.map fun kv =>
    { item := kv.1
      unit := kv.2.2.1
      coef := kv.2.1
      inventory := round3 kv.2.2.2
      required := round3 (requiredQty total kv.2.1 kv.2.2.2) }

/-- `SupplyApp.calculate` (main.py lines 330-372) as a state transformer:
update the estimates from the day entries (abort with a message on a bad
entry), sum the selected days, let a non-empty override replace that sum
(abort with a message when it fails to parse), then rebuild the table,
retitle the window and log completion. -/
def calculate (s : AppState) : AppState :=
  let upd := updateEstimates s.data.sales_estimates s.days
  match upd.2 with
  | some day =>
    { s with data := { s.data with sales_estimates := upd.1 },
             messages := s.messages ++ ["Invalid number for " ++ day] }
  | none =>
    let data := { s.data with sales_estimates := upd.1 }
    let daySum := selectedSum upd.1 s.days
    let ov := (pyStrip s.override_entry)
    match (if ov = "" then some daySum else parseFloat ov : Option ℚ) with
    | none =>
      { s with data := data,
               messages := s.messages ++ ["Override must be a number"] }
    | some total =>
      { s with data := data,
               table := makeRows total data.supply_items,
               title := "Restaurant Supply Calculator (Total Sales = " ++
                 toString total ++ ")",
               messages := s.messages ++ ["Calculation done"] }

/-- `calculate` aborts before touching the table: a day entry fails to
parse, or a non-empty override fails to parse. -/
def calcAborts (s : AppState) : Bool :=
  (updateEstimates s.data.sales_estimates s.days).2.isSome ||
    (!((pyStrip s.override_entry) == "") &&
      (parseFloat (pyStrip s.override_entry)).isNone)

/-- The `save_edit` closure of `SupplyApp.on_tree_double_click` (main.py
lines 288-322), after its empty-entry guard and the tree-cell update: the
edited row's displayed strings `[Item, Unit, UPT Coefficient, Inventory, _]`
are coerced — a coefficient or inventory that fails `float` is reset to 0
with a warning — and the triple is stored, setting `dirty`. -/
def saveEdit (itemName unitVal coefTxt invTxt : String) (d : SupplyData)
    (msgs : List String) : SupplyData × List String :=
  let coefRes : ℚ × List String :=
    match parseFloat coefTxt with
    | some q => (q, msgs)
    | none => (0, msgs ++ ["Invalid coefficient for " ++ itemName ++ ", reset to 0"])
  let invRes : ℚ × List String :=
    match parseFloat invTxt with
    | some q => (q, coefRes.2)
    | none => (0, coefRes.2 ++ ["Invalid inventory for " ++ itemName ++ ", reset to 0"])
  let items := dictInsert itemName (coefRes.1, unitVal, invRes.1) d.supply_items
  ({ d with supply_items := items, dirty := true },
   invRes.2 ++ ["Updated item: " ++ itemName])

/-- `SupplyApp.add_item` (main.py lines 384-401): the three dialog results
(`none` models a cancelled dialog).  An empty or cancelled unit, then an
empty or cancelled name, silently abort; a cancelled or empty coefficient
text falls back to `"0"`; a coefficient that fails `float` aborts with a
message; otherwise `SupplyData.add_item` runs and the addition is logged. -/
def addItemFlow (nameO unitO coefO : Option String) (d : SupplyData)
    (msgs : List String) : SupplyData × List String :=
  if unitO.getD "" = "" then (d, msgs)
  else if nameO.getD "" = "" then (d, msgs)
  else
    let name := nameO.getD ""
    let ctxt0 := coefO.getD ""
    let ctxt := if ctxt0 = "" then "0" else ctxt0
    match parseFloat ctxt with
    | none => (d, msgs ++ ["Coefficient must be a number"])
    | some coef =>
      (d.add_item name coef (unitO.getD ""),
       msgs ++ ["Item \x27" ++ name ++ "\x27 added (unsaved changes)"])

/-- The total `calculate` uses when it does not abort: the selected-day sum
over the just-updated estimates, replaced by a non-empty override that
parses (main.py lines 340-353). -/
def calcTotal (s : AppState) : ℚ :=
  let upd := updateEstimates s.data.sales_estimates s.days
  let daySum := selectedSum upd.1 s.days
  if (pyStrip s.override_entry) = "" then daySum
  else (parseFloat (pyStrip s.override_entry)).getD daySum

/-- A concrete state for instantiating the theorems: estimates Monday 100 and
Tuesday 120, both selected, override `"50"`, one supply item. -/
def exCalc : AppState :=
  { days := [⟨"Monday", "100", true⟩, ⟨"Tuesday", "120", true⟩]
    override_entry := "50"
    data := { sales_estimates := [("Monday", 100), ("Tuesday", 120)]
              supply_items := [("Flour", (1000, "kg", 0))]
              dark_mode := true, dirty := false }
    table := [], title := "", messages := [] }

/-- `exCalc` with a different previous table and message log (identical
engine inputs). -/
def exCalc2 : AppState :=
  { exCalc with table := [⟨"Old", "u", 1, 2, 3⟩], messages := ["earlier"] }

/-- A concrete state whose Monday entry does not parse, with a non-empty
previous table. -/
def exAbort : AppState :=
  { days := [⟨"Monday", "oops", false⟩]
    override_entry := ""
    data := { sales_estimates := [("Monday", 0)], supply_items := [],
              dark_mode := true, dirty := false }
    table := [⟨"Bread", "loaves", 1, 2, 3⟩], title := "", messages := [] }

/-- A concrete state whose Monday entry (`"5"`) differs from the stored
Monday estimate (`0`). -/
def exMut : AppState :=
  { days := [⟨"Monday", "5", false⟩]
    override_entry := ""
    data := { sales_estimates := [("Monday", 0)], supply_items := [],
              dark_mode := true, dirty := false }
    table := [], title := "", messages := [] }

/-!  Helper lemmas about the dict operations and the loaders. -/

theorem dictGet_dictInsert_self {α : Type} (k : String) (v : α) :
    ∀ m : List (String × α), dictGet k (dictInsert k v m) = some v := by
  intro m
  induction m with
  | nil => simp [dictGet, dictInsert]
  | cons kv t ih =>
    by_cases h : kv.1 = k
    · simp [dictGet, dictInsert, h]
    · simpa [dictGet, dictInsert, h] using ih

theorem round3_nonneg {q : ℚ} (h : 0 ≤ q) : 0 ≤ round3 q := by
  unfold round3
  have h2 : (0 : ℚ) ≤ q * 1000 + 1 / 2 := by linarith
  have h3 : (0 : ℚ) ≤ (⌊q * 1000 + 1 / 2⌋ : ℚ) := by
    exact_mod_cast Int.floor_nonneg.mpr h2
  rw [round_eq]
  exact div_nonneg h3 (by norm_num)

theorem requiredQty_nonneg (t c i : ℚ) : 0 ≤ requiredQty t c i := by
  simp only [requiredQty]
  split_ifs with h
  · exact le_refl 0
  · linarith [not_lt.mp h]

theorem requiredQty_eq_max (t c i : ℚ) :
    requiredQty t c i = max 0 (t / 1000 * c - i) := by
  simp only [requiredQty]
  rcases lt_or_le (t / 1000 * c - i) 0 with h | h
  · rw [if_pos h, max_eq_left h.le]
  · rw [if_neg (not_lt.mpr h), max_eq_right h]

theorem loadSales_roundtrip (l : List (String × ℚ)) :
    loadSales (l.map fun kv => (kv.1, JVal.num kv.2)) = some l := by
  induction l with
  | nil => rfl
  | cons kv t ih => simp [loadSales, pyFloat, ih]

theorem loadItems_roundtrip (l : List (String × (ℚ × String × ℚ))) :
    loadItems (l.map fun kv =>
      (kv.1, JVal.list [.num kv.2.1, .str kv.2.2.1, .num kv.2.2.2])) = some l := by
  induction l with
  | nil => rfl
  | cons kv t ih => simp [loadItems, loadItem, pyFloat, pyStr, ih]

theorem loadSales_keys :
    ∀ {ps : List (String × JVal)} {l : List (String × ℚ)},
      loadSales ps = some l → l.map Prod.fst = ps.map Prod.fst := by
  intro ps
  induction ps with
  | nil =>
    intro l h
    simp [loadSales] at h
    simp [← h]
  | cons kv t ih =>
    intro l h
    simp only [loadSales] at h
    split at h
    · exact Option.noConfusion h
    · split at h
      · exact Option.noConfusion h
      · rename_i rest hr
        simp only [Option.some_inj] at h
        subst h
        simp [ih hr]

theorem loadDoc_dirty {doc : JVal} {d : SupplyData}
    (h : loadDoc doc = some d) : d.dirty = false := by
  cases doc with
  | obj kvs =>
    simp only [loadDoc] at h
    split at h
    · exact Option.noConfusion h
    · split at h
      · exact Option.noConfusion h
      · split at h
        · exact Option.noConfusion h
        · split at h
          · exact Option.noConfusion h
          · simp only [Option.some_inj] at h
            subst h
            rfl
  | num q => exact Option.noConfusion h
  | str s => exact Option.noConfusion h
  | bool b => exact Option.noConfusion h
  | list l => exact Option.noConfusion h

theorem calculate_items_preserved (s : AppState) :
    (calculate s).data.supply_items = s.data.supply_items := by
  simp only [calculate]
  rcases h : (updateEstimates s.data.sales_estimates s.days).2 with _ | day
  · rcases hov : (if (pyStrip s.override_entry) = "" then
        some (selectedSum (updateEstimates s.data.sales_estimates s.days).1 s.days)
      else parseFloat (pyStrip s.override_entry) : Option ℚ) with _ | total <;> simp
  · simp

theorem calculate_ok_table (s : AppState) (h : calcAborts s = false) :
    (calculate s).table = makeRows (calcTotal s) s.data.supply_items := by
  simp only [calcAborts, Bool.or_eq_false_iff] at h
  obtain ⟨h1, h2⟩ := h
  simp only [calculate, calcTotal]
  rcases hu : (updateEstimates s.data.sales_estimates s.days).2 with _ | day
  · by_cases hov : (pyStrip s.override_entry) = ""
    · simp [hov]
    · simp only [hov, beq_iff_eq, if_neg hov] at h2 ⊢
      have h2' : (parseFloat (pyStrip s.override_entry)).isNone = false := by
        simpa [hov] using h2
      rcases hp : parseFloat (pyStrip s.override_entry) with _ | t
      · rw [hp] at h2'; simp at h2'
      · simp [hp]
  · rw [hu] at h1; simp at h1

/-!  The claims. -/

/-- C1: in a recalculation with total sales `total`, each supply item's
required quantity is `(total / 1000) * coefficient - inventory` clamped
below at 0.0, and no table row a recalculation produces has a negative
required quantity. -/
theorem recalc_required_clamped_nonneg (total coef inv : ℚ)
    (items : List (String × (ℚ × String × ℚ))) (s : AppState) :
    requiredQty total coef inv = max 0 (total / 1000 * coef - inv) ∧
    0 ≤ requiredQty total coef inv ∧
    (∀ r ∈ makeRows total items, 0 ≤ r.required) ∧
    (calcAborts s = false → ∀ r ∈ (calculate s).table, 0 ≤ r.required) := by
  refine ⟨requiredQty_eq_max total coef inv, requiredQty_nonneg total coef inv,
    ?_, ?_⟩
  · intro r hr
    simp only [makeRows, List.mem_map] at hr
    obtain ⟨kv, _, rfl⟩ := hr
    exact round3_nonneg (requiredQty_nonneg _ _ _)
  · intro h r hr
    rw [calculate_ok_table s h] at hr
    simp only [makeRows, List.mem_map] at hr
    obtain ⟨kv, _, rfl⟩ := hr
    exact round3_nonneg (requiredQty_nonneg _ _ _)

/-- C2: saving a configuration with `save` and loading the document it wrote
with `load` yields the same configuration — the same sales estimates, supply
items and dark-mode flag (`dirty`, not part of the persisted document, is
false after a load). -/
theorem save_load_round_trip (d : SupplyData) :
    loadDoc (saveRun d).2 = some { d with dirty := false } ∧
    initStore (some (saveRun d).2) = some ({ d with dirty := false }, none) := by
  have h1 : loadDoc (saveDoc d) = some { d with dirty := false } := by
    simp [loadDoc, saveDoc, jGetD, dictGet, jItems, pyBool,
      loadSales_roundtrip, loadItems_roundtrip]
  refine ⟨h1, ?_⟩
  show (match loadDoc (saveDoc d) with
    | some d' => some (d', none)
    | none => none : Option (SupplyData × Option JVal)) = _
  rw [h1]

/-- C3: `load` accepts a 2-element item record as `(coefficient, unit)` with
inventory defaulted to 0.0, a 3-element record as
`(coefficient, unit, inventory)`, and a bare numeric scalar as a
coefficient with unit `""` and inventory 0.0; in particular
`{"Bread": [0.02, "loaves"]}` loads as coefficient 0.02, unit `"loaves"`,
inventory 0.0. -/
theorem load_legacy_item_shapes (a c q : ℚ) (u : String) :
    loadItem (.list [.num a, .str u]) = some (a, u, 0) ∧
    loadItem (.list [.num a, .str u, .num c]) = some (a, u, c) ∧
    loadItem (.num q) = some (q, "", 0) ∧
    loadDoc (.obj [("supply_items",
        .obj [("Bread", .list [.num 0.02, .str "loaves"])])]) =
      some { sales_estimates := [],
             supply_items := [("Bread", (0.02, "loaves", 0))],
             dark_mode := true, dirty := false } :=
  ⟨rfl, rfl, rfl, rfl⟩

/-- C4 counterexample: loading an existing document whose sales-estimates
mapping holds only Monday yields an in-memory mapping with only Monday —
the six other weekdays are not added and not defaulted to 0.0. -/
theorem load_missing_days_cex :
    loadDoc (.obj [("sales_estimates", .obj [("Monday", .num 5)]),
        ("supply_items", .obj []), ("dark_mode", .bool true)]) =
      some { sales_estimates := [("Monday", 5)], supply_items := [],
             dark_mode := true, dirty := false } ∧
    dictGet "Tuesday" [(("Monday" : String), (5 : ℚ))] = none :=
  ⟨rfl, rfl⟩

/-- C4 amended: after a first-run bootstrap load the estimates are exactly
the seven canonical weekdays, each 0.0; after loading an existing document
the in-memory mapping has exactly the keys of the document's sales-estimates
mapping, in order — weekdays absent from the source are not added. -/
theorem load_day_keys_amended :
    (∀ d w, initStore none = some (d, w) →
      d.sales_estimates = defaultEstimates) ∧
    (∀ kvs ps d, jItems (jGetD kvs "sales_estimates" (JVal.obj [])) = some ps →
      loadDoc (.obj kvs) = some d →
      d.sales_estimates.map Prod.fst = ps.map Prod.fst) := by
  constructor
  · intro d w h
    simp only [initStore, saveRun, Option.some_inj] at h
    have h1 := congrArg (fun p : SupplyData × Option JVal => p.1.sales_estimates) h
    simpa using h1.symm
  · intro kvs ps d h1 h2
    simp only [loadDoc] at h2
    split at h2
    · exact Option.noConfusion h2
    · rename_i salesPairs hsp
      have he : salesPairs = ps := by
        rw [hsp] at h1
        exact Option.some_inj.mp h1
      subst he
      split at h2
      · exact Option.noConfusion h2
      · rename_i sales hs
        split at h2
        · exact Option.noConfusion h2
        · split at h2
          · exact Option.noConfusion h2
          · simp only [Option.some_inj] at h2
            subst h2
            exact loadSales_keys hs

/-- C5: when every day entry parses, the recalculation's total is the sum of
the just-updated estimates of exactly the selected days, and a non-empty
override that parses as a number replaces that sum entirely (never adds to
it); with no day selected the day sum is 0. -/
theorem calc_total_and_override (s : AppState)
    (h : (updateEstimates s.data.sales_estimates s.days).2 = none) :
    ((pyStrip s.override_entry) = "" →
      (calculate s).table = makeRows
        (selectedSum (updateEstimates s.data.sales_estimates s.days).1 s.days)
        s.data.supply_items) ∧
    (∀ t, parseFloat (pyStrip s.override_entry) = some t →
      (calculate s).table = makeRows t s.data.supply_items) ∧
    (∀ est days, (days.all fun d => !d.selected) →
      selectedSum est days = 0) := by
  refine ⟨?_, ?_, ?_⟩
  · intro hov
    simp only [calculate]
    rw [h]
    simp [hov]
  · intro t ht
    have hne : (pyStrip s.override_entry) ≠ "" := by
      intro he
      rw [he] at ht
      have hpe : parseFloat "" = none := by with_unfolding_all rfl
      exact Option.noConfusion (hpe.symm.trans ht)
    simp only [calculate]
    rw [h]
    simp [hne, ht]
  · intro est days hall
    unfold selectedSum
    have hf : days.filter (fun d => d.selected) = [] := by
      rw [List.filter_eq_nil_iff]
      intro a ha
      simpa using List.all_eq_true.mp hall a ha
    rw [hf]
    rfl

/-- C5 witness: estimates Monday 100 and Tuesday 120, both days selected,
override `"50"`: the table is built from total 50. -/
theorem calc_total_and_override_w :
    (updateEstimates exCalc.data.sales_estimates exCalc.days).2 = none ∧
    parseFloat (pyStrip exCalc.override_entry) = some 50 ∧
    (calculate exCalc).table = makeRows 50 exCalc.data.supply_items :=
  ⟨by with_unfolding_all decide, by with_unfolding_all decide,
   (calc_total_and_override exCalc (by with_unfolding_all decide)).2.1 50 (by with_unfolding_all decide)⟩

/-- C6: when a day entry or a non-empty override fails to parse as a number,
`calculate` aborts before touching the results table: the table and the
supply-item map are unchanged and exactly one message naming the problem is
appended (the function is total, so the process cannot crash on such
input). -/
theorem calc_abort_preserves_table (s : AppState)
    (h : calcAborts s = true) :
    (calculate s).table = s.table ∧
    (calculate s).data.supply_items = s.data.supply_items ∧
    ∃ m, (calculate s).messages = s.messages ++ [m] := by
  simp only [calcAborts, Bool.or_eq_true, Bool.and_eq_true] at h
  rcases hu : (updateEstimates s.data.sales_estimates s.days).2 with _ | day
  · have h2 : (pyStrip s.override_entry) ≠ "" ∧
        parseFloat (pyStrip s.override_entry) = none := by
      rcases h with h1 | h2
      · rw [hu] at h1
        exact absurd h1 (by simp)
      · constructor
        · intro he
          rw [he] at h2
          simpa using h2.1
        · have := h2.2
          rwa [Option.isNone_iff_eq_none] at this
    simp only [calculate]
    rw [hu]
    simp [h2.1, h2.2]
  · simp only [calculate]
    rw [hu]
    simp

/-- C6 witness: a Monday entry of `"oops"` aborts and the previous table
stays. -/
theorem calc_abort_preserves_table_w :
    calcAborts exAbort = true ∧
    (calculate exAbort).table = exAbort.table ∧
    (calculate exAbort).data.supply_items = exAbort.data.supply_items ∧
    (∃ m, (calculate exAbort).messages = exAbort.messages ++ [m]) :=
  ⟨by with_unfolding_all decide, (calc_abort_preserves_table exAbort (by with_unfolding_all decide)).1,
   (calc_abort_preserves_table exAbort (by with_unfolding_all decide)).2.1,
   (calc_abort_preserves_table exAbort (by with_unfolding_all decide)).2.2⟩

/-- C7 counterexample: a loaded document whose item record carries a
non-numeric coefficient (`{"X": ["abc", "kg", 1]}`) makes `load` raise
(`float("abc")` is a `ValueError`, modelled as `none`): the field is not
defaulted to 0.0, no warning is reported, and the load fails instead of
producing a configuration. -/
theorem load_nonnumeric_coef_cex :
    loadDoc (.obj [("supply_items",
        .obj [("X", .list [.str "abc", .str "kg", .num 1])])]) = none := by
  with_unfolding_all rfl

/-- C7 amended: on the table-edit path a non-numeric coefficient or
inventory is defaulted to 0.0 with a user-visible warning, the stored item
fields are always numbers, and the edit never crashes; on the document-load
path a non-numeric coefficient, or a non-numeric inventory next to a numeric
coefficient (`float(v[2])`, main.py line 62), instead makes `load` fail with
an exception (see the counterexample). -/
theorem nonnumeric_fields_amended :
    (∀ (n u ct it : String) (d : SupplyData) (msgs : List String),
      dictGet n (saveEdit n u ct it d msgs).1.supply_items =
        some ((parseFloat ct).getD 0, u, (parseFloat it).getD 0) ∧
      (saveEdit n u ct it d msgs).1.dirty = true ∧
      (parseFloat ct = none →
        ("Invalid coefficient for " ++ n ++ ", reset to 0") ∈
          (saveEdit n u ct it d msgs).2) ∧
      (parseFloat it = none →
        ("Invalid inventory for " ++ n ++ ", reset to 0") ∈
          (saveEdit n u ct it d msgs).2)) ∧
    (∀ (u : String) (cv iv : JVal), pyFloat cv = none →
      loadItem (.list [cv, .str u, iv]) = none) ∧
    (∀ (u : String) (cv iv : JVal) (q : ℚ), pyFloat cv = some q →
      pyFloat iv = none → loadItem (.list [cv, .str u, iv]) = none) := by
  refine ⟨?_, ?_, ?_⟩
  · intro n u ct it d msgs
    rcases hc : parseFloat ct with _ | cq <;>
      rcases hi : parseFloat it with _ | iq <;>
        simp [saveEdit, hc, hi, dictGet_dictInsert_self]
  · intro u cv iv hcv
    simp [loadItem, hcv]
  · intro u cv iv q hcv hiv
    simp [loadItem, hcv, hiv]

/-- C8 counterexample: `calculate` writes the parsed day-entry values back
into `sales_estimates`, mutating that input: from a state whose stored
Monday estimate is 0 while the Monday entry text is `"5"`, recalculation
changes the stored estimates. -/
theorem calculate_mutates_estimates_cex :
    (calculate exMut).data.sales_estimates ≠ exMut.data.sales_estimates := by
  with_unfolding_all decide

/-- C8 amended: the recalculation is deterministic — two states with
identical sales estimates, day rows, override text and supply items yield
identical output tables when the calculation succeeds, regardless of the
previous table, title or message log — and it never mutates the supply-item
map; it does, however, overwrite the sales-estimates input with the values
parsed from the day entries (see the counterexample). -/
theorem calculate_deterministic_amended (s1 s2 : AppState)
    (hd : s1.days = s2.days) (ho : s1.override_entry = s2.override_entry)
    (hdata : s1.data = s2.data) (hok : calcAborts s1 = false) :
    (calculate s1).table = (calculate s2).table ∧
    (calculate s1).data.supply_items = s1.data.supply_items ∧
    (calculate s2).data.supply_items = s2.data.supply_items := by
  have hok2 : calcAborts s2 = false := by
    simp only [calcAborts] at hok ⊢
    rw [← hd, ← ho, ← hdata]
    exact hok
  have htot : calcTotal s1 = calcTotal s2 := by
    simp only [calcTotal]
    rw [hd, ho, hdata]
  refine ⟨?_, calculate_items_preserved s1, calculate_items_preserved s2⟩
  rw [calculate_ok_table s1 hok, calculate_ok_table s2 hok2, htot, hdata]

/-- C8 witness: two states sharing estimates, day rows, override and items
but with different previous tables and message logs produce the same
table. -/
theorem calculate_deterministic_amended_w :
    exCalc.days = exCalc2.days ∧
    exCalc.override_entry = exCalc2.override_entry ∧
    exCalc.data = exCalc2.data ∧
    calcAborts exCalc = false ∧
    ((calculate exCalc).table = (calculate exCalc2).table ∧
     (calculate exCalc).data.supply_items = exCalc.data.supply_items ∧
     (calculate exCalc2).data.supply_items = exCalc2.data.supply_items) :=
  ⟨rfl, rfl, rfl, by with_unfolding_all decide,
   calculate_deterministic_amended exCalc exCalc2 rfl rfl rfl
     (by with_unfolding_all decide)⟩

/-- C9: `add_item` stores `(coefficient, unit, 0.0)` under the given name —
inserting a new item or overwriting a same-named one, whose inventory is
thereby reset to 0.0 — and sets the dirty flag; in the add-item flow an
empty (or cancelled) name is a silent no-op that leaves the item map and
the message log unchanged. -/
theorem add_item_inserts_resets_inventory (d : SupplyData)
    (msgs : List String) (name unit ctxt : String) (coef : Rat) :
    (addItemFlow (some "") (some unit) (some ctxt) d msgs = (d, msgs)) ∧
    (addItemFlow none (some unit) (some ctxt) d msgs = (d, msgs)) ∧
    (name ≠ "" → unit ≠ "" →
      parseFloat (if ctxt = "" then "0" else ctxt) = some coef →
      addItemFlow (some name) (some unit) (some ctxt) d msgs =
        (d.add_item name coef unit,
         msgs ++ ["Item \x27" ++ name ++ "\x27 added (unsaved changes)"])) ∧
    dictGet name (d.add_item name coef unit).supply_items =
      some (coef, unit, 0) ∧
    (d.add_item name coef unit).dirty = true := by
  refine ⟨?_, ?_, ?_, ?_, rfl⟩
  · by_cases hu : unit = "" <;> simp [addItemFlow, hu]
  · by_cases hu : unit = "" <;> simp [addItemFlow, hu]
  · intro hn hu hp
    simp [addItemFlow, hu, hn, hp]
  · simp [SupplyData.add_item, dictGet_dictInsert_self]

/-- C10: immediately after constructing the store (which runs `load`), the
dirty flag is false, whether the backing file existed (the load path never
sets it) or not (the bootstrap path ends in `save`, which clears it). -/
theorem init_dirty_false (file : Option JVal) (d : SupplyData)
    (w : Option JVal) (h : initStore file = some (d, w)) :
    d.dirty = false := by
  cases file with
  | none =>
    simp only [initStore, saveRun, Option.some_inj] at h
    have h1 := congrArg (fun p : SupplyData × Option JVal => p.1.dirty) h
    simpa using h1.symm
  | some doc =>
    simp only [initStore] at h
    split at h
    · rename_i d' hld
      simp only [Option.some_inj] at h
      have h1 := congrArg (fun p : SupplyData × Option JVal => p.1) h
      simp only at h1
      rw [← h1]
      exact loadDoc_dirty hld
    · exact Option.noConfusion h

/-- C10 witness: the first-run bootstrap construction ends with a clean
dirty flag. -/
theorem init_dirty_false_w :
    initStore none =
      some ({ sales_estimates := defaultEstimates, supply_items := [],
              dark_mode := true, dirty := false },
            some (saveDoc { sales_estimates := defaultEstimates,
                            supply_items := [], dark_mode := true,
                            dirty := false })) ∧
    SupplyData.dirty
      { sales_estimates := defaultEstimates, supply_items := [],
        dark_mode := true, dirty := false } = false :=
  ⟨rfl, init_dirty_false none _ _ rfl⟩

end SSXL
